import Mathlib

/-!
Shallow embedding of the course-management service of this repository:
role-gated course lifecycle and authorization policy.

Sources under `src/`:
* `src/backend/routes/courseRoutes.js` — the route wiring: which middleware
  chain guards each HTTP endpoint, and in which order.
* `src/unnamed/part_000` — the test suite and verification script of the repository,
  which pin status codes and response-body shapes.
* `src/frontend/src/pages/Admin/AdminCourses.jsx` — the admin console page
  with the `deletingIds` delete-button state.

The controllers (`controllers/courseController.js`) and the auth middleware
(`middleware/authMiddleware.js`) are required by the routes but are not among
the repository files; their definitions below are modelled from the spec
(the doc comment of each such definition says so).
-/

namespace LearningSystem

/-- Role of a user: the closed enumeration of the spec, {student, instructor, admin}. -/
inductive Role
  | student
  | instructor
  | admin
deriving DecidableEq, Repr

/-- An authenticated actor: identifier and role (spec §6, authentication
collaborator yields `{id, role}`). -/
structure Actor where
  id : Nat
  role : Role
deriving DecidableEq, Repr

/-- A submitted course payload: each field optional, mirroring a JSON request
body in which any field may be absent. -/
structure Payload where
  title : Option String
  description : Option String
  category : Option String
  level : Option String
  price : Option Int
  duration : Option String
  thumbnail : Option String
deriving DecidableEq, Repr

/-- A persisted course record (spec §3), with the mongoose-style `_id` key. -/
structure Course where
  _id : Nat
  title : String
  description : String
  category : String
  level : String
  price : Int
  duration : String
  thumbnail : String
  instructor : Nat
deriving DecidableEq, Repr

/-- An enrollment record: (user, course) with a completion flag (spec §3:
uniqueness per (User, Course); certificates need a completed enrollment). -/
structure Enrollment where
  user : Nat
  course : Nat
  completed : Bool
deriving DecidableEq, Repr

/-- A review record: (user, course, rating, comment) (spec §3). -/
structure Review where
  user : Nat
  course : Nat
  rating : Int
  comment : String
deriving DecidableEq, Repr

/-- State of the persistence collaborator: stored courses, enrollments,
reviews, and the next generated course identifier. -/
structure DB where
  courses : List Course
  enrollments : List Enrollment
  reviews : List Review
  nextId : Nat
deriving DecidableEq, Repr

/-- Error taxonomy of spec §7. -/
inductive ApiError
  | unauthenticated
  | forbidden
  | notFound
  | validationFailed (fields : List String)
  | conflict
deriving DecidableEq, Repr

/-- HTTP status each error maps to (spec §6/§7 status pairs, confirmed by the
test suite: 401, 403, 404, 400, 409). -/
def statusOf : ApiError → Nat
  | .unauthenticated => 401
  | .forbidden => 403
  | .notFound => 404
  | .validationFailed _ => 400
  | .conflict => 409

/-- JSON values, for stating response-body shapes the tests read. -/
inductive Json
  | str (s : String)
  | num (n : Int)
  | jbool (b : Bool)
  | obj (fields : List (String × Json))
  | arr (elems : List Json)

/-- Field lookup on a JSON object, as `body.field` in the tests. -/
def Json.getField : Json → String → Option Json
  | .obj fs, k => (fs.find? (fun kv => kv.fst == k)).map (fun kv => kv.snd)
  | _, _ => none

/-- Serialization of a course record to its JSON response form. -/
def Course.toJson (c : Course) : Json :=
  .obj [("_id", .num (c._id : Int)), ("title", .str c.title),
        ("description", .str c.description), ("category", .str c.category),
        ("level", .str c.level), ("price", .num c.price),
        ("duration", .str c.duration), ("thumbnail", .str c.thumbnail),
        ("instructor", .num (c.instructor : Int))]

/-- Success envelope `\x7b success: true, data: ... \x7d` (spec §6). -/
def envelope (data : Json) : Json :=
  .obj [("success", .jbool true), ("data", data)]

/-- Error body with a human-readable message (spec §7; the tests read
`err.response.data.message`). -/
def errorBody (e : ApiError) : Json :=
  .obj [("success", .jbool false), ("message", .str (match e with
    | .unauthenticated => "Not authorized"
    | .forbidden => "Forbidden"
    | .notFound => "Course not found"
    | .validationFailed _ => "Validation failed"
    | .conflict => "Already enrolled"))]

/-- An HTTP response: status code and JSON body. -/
structure HttpResponse where
  status : Nat
  body : Json

/-- Modelled from the spec: the `protect` middleware of
`middleware/authMiddleware.js` (not among the repository files). Spec §6:
missing/invalid auth → 401; the authentication collaborator yields either an
actor or signals unauthenticated, and the chain halts with Unauthenticated
when no actor is resolved. -/
def protect (auth : Option Actor) : Except ApiError Actor :=
  match auth with
  | none => .error .unauthenticated
  | some a => .ok a

/-- Modelled from the spec: the `authorize(...roles)` middleware of
`middleware/authMiddleware.js` (not among the repository files). Spec §6:
wrong role → 403; it halts with Forbidden when the role of the actor is not among
the listed roles. -/
def authorize (roles : List Role) (a : Actor) : Except ApiError Actor :=
  if a.role ∈ roles then .ok a else .error .forbidden

/-- Modelled from the spec (§4.1): the pure authorization decision table
`canPerform(actorRole, actorId, course, action)`. -/
inductive Action
  | create
  | read
  | update
  | delete
  | enroll
  | review
  | downloadCertificate
deriving DecidableEq, Repr

/-- Modelled from the spec (§4.1): allow/deny per (role, ownership, action).
`course` is the course acted on when the action targets one. -/
def canPerform (role : Role) (actorId : Nat) (course : Option Course)
    (act : Action) : Bool :=
  match act with
  | .create => role == .instructor || role == .admin
  | .read => true
  | .update => role == .admin ||
      (role == .instructor && (match course with
        | some c => actorId == c.instructor
        | none => false))
  | .delete => role == .admin ||
      (role == .instructor && (match course with
        | some c => actorId == c.instructor
        | none => false))
  | .enroll => true
  | .review => true
  | .downloadCertificate => true

/-- Modelled from the spec (§4.2): the offending fields of a create payload,
collected exhaustively — `title` and `description` must be present non-empty,
`price` if present must be non-negative. -/
def createValidationErrors (p : Payload) : List String :=
  (if (p.title.getD "").isEmpty then ["title"] else []) ++
  (if (p.description.getD "").isEmpty then ["description"] else []) ++
  (if (p.price.getD 0) < 0 then ["price"] else [])

/-- Modelled from the spec (§4.2): on update only supplied fields are
validated; omitted fields are left unchanged. -/
def updateValidationErrors (p : Payload) : List String :=
  (match p.title with
    | some t => if t.isEmpty then ["title"] else []
    | none => []) ++
  (match p.description with
    | some d => if d.isEmpty then ["description"] else []
    | none => []) ++
  (match p.price with
    | some pr => if pr < 0 then ["price"] else []
    | none => [])

/-- Modelled from the spec (§4.2): `validateCoursePayload` for create —
either the payload is accepted or a `ValidationFailed` carries every
offending field. -/
def validateCoursePayload (p : Payload) : Except ApiError Payload :=
  match createValidationErrors p with
  | [] => .ok p
  | errs => .error (.validationFailed errs)

/-- The course record built from a payload by create: `instructor := actor.id`,
absent price defaults to 0, identifier generated by persistence (spec §4.3). -/
def createdCourse (a : Actor) (p : Payload) (db : DB) : Course :=
  { _id := db.nextId
    title := p.title.getD ""
    description := p.description.getD ""
    category := p.category.getD ""
    level := p.level.getD ""
    price := p.price.getD 0
    duration := p.duration.getD ""
    thumbnail := p.thumbnail.getD ""
    instructor := a.id }

/-- Modelled from the spec (§4.3): `createCourse(actor, payload)` of
`controllers/courseController.js` (not among the repository files). Validates
the payload, persists the new record and returns it. The role gate for create
lives in the `authorize` middleware of the route (`courseRoutes.js` line 18). -/
def createCourse (a : Actor) (p : Payload) (db : DB) :
    Except ApiError (Course × DB) :=
  match validateCoursePayload p with
  | .error e => .error e
  | .ok _ =>
    let c := createdCourse a p db
    .ok (c, { db with courses := db.courses ++ [c], nextId := db.nextId + 1 })

/-- Lookup of a stored course by identifier. -/
def findCourse (db : DB) (id : Nat) : Option Course :=
  db.courses.find? (fun c => c._id == id)

/-- Modelled from the spec (§4.3): `getCourseById(id)` — NotFound when no
course has the identifier, otherwise the full record. -/
def getCourseById (db : DB) (id : Nat) : Except ApiError Course :=
  match findCourse db id with
  | none => .error .notFound
  | some c => .ok c

/-- Modelled from the spec (§4.2): apply only the supplied payload fields to
a stored course; identity fields `_id` and `instructor` are immutable. -/
def applyUpdate (c : Course) (p : Payload) : Course :=
  { c with
    title := p.title.getD c.title
    description := p.description.getD c.description
    category := p.category.getD c.category
    level := p.level.getD c.level
    price := p.price.getD c.price
    duration := p.duration.getD c.duration
    thumbnail := p.thumbnail.getD c.thumbnail }

/-- Modelled from the spec (§4.3): `updateCourse(actor, id, payload)` of
`controllers/courseController.js` (not among the repository files). Fetch,
NotFound if absent; ownership check per §4.1 update row; partial validation;
apply supplied fields; return the updated record. -/
def updateCourse (a : Actor) (id : Nat) (p : Payload) (db : DB) :
    Except ApiError (Course × DB) :=
  match findCourse db id with
  | none => .error .notFound
  | some c =>
    if canPerform a.role a.id (some c) .update then
      match updateValidationErrors p with
      | [] =>
        let c2 := applyUpdate c p
        .ok (c2, { db with
          courses := db.courses.map (fun d => if d._id == id then c2 else d) })
      | errs => .error (.validationFailed errs)
    else .error .forbidden

/-- Modelled from the spec (§4.3): `deleteCourse(actor, id)` of
`controllers/courseController.js` (not among the repository files). Fetch,
NotFound if absent; ownership check per §4.1 delete row; remove the course
and its enrollment and review records. -/
def deleteCourse (a : Actor) (id : Nat) (db : DB) : Except ApiError DB :=
  match findCourse db id with
  | none => .error .notFound
  | some c =>
    if canPerform a.role a.id (some c) .delete then
      .ok { db with
        courses := db.courses.filter (fun d => !(d._id == id))
        enrollments := db.enrollments.filter (fun e => !(e.course == id))
        reviews := db.reviews.filter (fun r => !(r.course == id)) }
    else .error .forbidden

/-- Modelled from the spec (§4.3): `enrollCourse(actor, id)` of
`controllers/courseController.js` (not among the repository files). Fetch,
NotFound if absent; Conflict when an enrollment for (actor, course) already
exists (idempotent rejection, not duplicate creation); otherwise append one
enrollment record. -/
def enrollCourse (a : Actor) (id : Nat) (db : DB) : Except ApiError DB :=
  match findCourse db id with
  | none => .error .notFound
  | some _ =>
    if db.enrollments.any (fun e => e.user == a.id && e.course == id) then
      .error .conflict
    else
      .ok { db with
        enrollments := db.enrollments ++ [⟨a.id, id, false⟩] }

/-- Modelled from the spec (§4.3): `reviewCourse(actor, id, rating, comment)`
of `controllers/courseController.js` (not among the repository files).
Rating validated to 1–5; upsert semantics per (actor, course). -/
def reviewCourse (a : Actor) (id : Nat) (rating : Int) (comment : String)
    (db : DB) : Except ApiError DB :=
  match findCourse db id with
  | none => .error .notFound
  | some _ =>
    if rating < 1 || 5 < rating then .error (.validationFailed ["rating"])
    else if db.reviews.any (fun r => r.user == a.id && r.course == id) then
      .ok { db with reviews := db.reviews.map (fun r =>
        if r.user == a.id && r.course == id then ⟨a.id, id, rating, comment⟩
        else r) }
    else
      .ok { db with reviews := db.reviews ++ [⟨a.id, id, rating, comment⟩] }

/-- Modelled from the spec (§4.3): `downloadCertificate(actor, id)` of
`controllers/courseController.js` (not among the repository files). Fetch,
NotFound if absent; Forbidden without a completed enrollment; otherwise the
certificate references actor and course. -/
def downloadCertificate (a : Actor) (id : Nat) (db : DB) :
    Except ApiError (Nat × Nat) :=
  match findCourse db id with
  | none => .error .notFound
  | some _ =>
    if db.enrollments.any
        (fun e => e.user == a.id && e.course == id && e.completed) then
      .ok (a.id, id)
    else .error .forbidden

/-- Route wiring from `src/backend/routes/courseRoutes.js` line 17:
`router.route("/").get(getCourses)` — no middleware at all, so any credentials
on the request play no part. The list is returned in the success
envelope (spec §6). -/
def getCoursesEndpoint (_auth : Option Actor) (db : DB) : HttpResponse :=
  { status := 200, body := envelope (.arr (db.courses.map Course.toJson)) }

/-- Route wiring from `src/backend/routes/courseRoutes.js` line 21:
`router.route("/:id").get(getCourseById)` — no middleware. The success body
is the bare course record: the test of the repository reads `getRes.body.price`
directly (`src/unnamed/part_000` line 134) and the verification script reads
`course.price` off the response data (line 357), so the fields of the record sit
at the top level of the body, not under a `data` key. -/
def getCourseByIdEndpoint (_auth : Option Actor) (id : Nat) (db : DB) :
    HttpResponse :=
  match getCourseById db id with
  | .error e => { status := statusOf e, body := errorBody e }
  | .ok c => { status := 200, body := c.toJson }

/-- Route wiring from `src/backend/routes/courseRoutes.js` line 18:
`.post(protect, authorize("admin", "instructor"), createCourse)` — the chain
runs left to right; 201 with the created record in the envelope on success
(test suite, lines 87–91). -/
def postCoursesEndpoint (auth : Option Actor) (p : Payload) (db : DB) :
    HttpResponse × DB :=
  match protect auth with
  | .error e => ({ status := statusOf e, body := errorBody e }, db)
  | .ok a =>
    match authorize [.admin, .instructor] a with
    | .error e => ({ status := statusOf e, body := errorBody e }, db)
    | .ok a2 =>
      match createCourse a2 p db with
      | .error e => ({ status := statusOf e, body := errorBody e }, db)
      | .ok (c, db2) => ({ status := 201, body := envelope c.toJson }, db2)

/-- Route wiring from `src/backend/routes/courseRoutes.js` line 22:
`.put(protect, authorize("admin", "instructor"), updateCourse)` — 200 with
the updated record in the envelope on success (test suite, lines 152–153). -/
def putCourseEndpoint (auth : Option Actor) (id : Nat) (p : Payload)
    (db : DB) : HttpResponse × DB :=
  match protect auth with
  | .error e => ({ status := statusOf e, body := errorBody e }, db)
  | .ok a =>
    match authorize [.admin, .instructor] a with
    | .error e => ({ status := statusOf e, body := errorBody e }, db)
    | .ok a2 =>
      match updateCourse a2 id p db with
      | .error e => ({ status := statusOf e, body := errorBody e }, db)
      | .ok (c, db2) => ({ status := 200, body := envelope c.toJson }, db2)

/-- Route wiring from `src/backend/routes/courseRoutes.js` line 23:
`.delete(protect, authorize("admin", "instructor"), deleteCourse)` — 200 on
success (spec §6). -/
def deleteCourseEndpoint (auth : Option Actor) (id : Nat) (db : DB) :
    HttpResponse × DB :=
  match protect auth with
  | .error e => ({ status := statusOf e, body := errorBody e }, db)
  | .ok a =>
    match authorize [.admin, .instructor] a with
    | .error e => ({ status := statusOf e, body := errorBody e }, db)
    | .ok a2 =>
      match deleteCourse a2 id db with
      | .error e => ({ status := statusOf e, body := errorBody e }, db)
      | .ok db2 =>
        ({ status := 200,
           body := .obj [("success", .jbool true),
                         ("message", .str "Course deleted")] }, db2)

/-- Route wiring from `src/backend/routes/courseRoutes.js` line 25:
`router.post("/:id/enroll", protect, enrollCourse)` — auth only, no role
gate; 201 on success (spec §6: 201/200 on success, 409 on duplicate). -/
def enrollEndpoint (auth : Option Actor) (id : Nat) (db : DB) :
    HttpResponse × DB :=
  match protect auth with
  | .error e => ({ status := statusOf e, body := errorBody e }, db)
  | .ok a =>
    match enrollCourse a id db with
    | .error e => ({ status := statusOf e, body := errorBody e }, db)
    | .ok db2 =>
      ({ status := 201,
         body := .obj [("success", .jbool true),
                       ("message", .str "Enrolled")] }, db2)

/-- Route wiring from `src/backend/routes/courseRoutes.js` line 26:
`router.post("/:id/reviews", protect, reviewCourse)` — auth only. -/
def reviewEndpoint (auth : Option Actor) (id : Nat) (rating : Int)
    (comment : String) (db : DB) : HttpResponse × DB :=
  match protect auth with
  | .error e => ({ status := statusOf e, body := errorBody e }, db)
  | .ok a =>
    match reviewCourse a id rating comment db with
    | .error e => ({ status := statusOf e, body := errorBody e }, db)
    | .ok db2 =>
      ({ status := 200,
         body := .obj [("success", .jbool true),
                       ("message", .str "Review saved")] }, db2)

/-- Route wiring from `src/backend/routes/courseRoutes.js` line 27:
`router.get("/:id/certificate", protect, downloadCertificate)` — auth only. -/
def certificateEndpoint (auth : Option Actor) (id : Nat) (db : DB) :
    HttpResponse × DB :=
  match protect auth with
  | .error e => ({ status := statusOf e, body := errorBody e }, db)
  | .ok a =>
    match downloadCertificate a id db with
    | .error e => ({ status := statusOf e, body := errorBody e }, db)
    | .ok _ =>
      ({ status := 200,
         body := .obj [("success", .jbool true),
                       ("message", .str "Certificate")] }, db)

/-- Mirrors `hasRequiredFields` of the verification script
(`src/unnamed/part_000` lines 450–455): `_id`, `title`, `price`, `duration`
and `instructor` are all present on the record. -/
def hasRequiredFields (j : Json) : Bool :=
  (j.getField "_id").isSome && (j.getField "title").isSome &&
  (j.getField "price").isSome && (j.getField "duration").isSome &&
  (j.getField "instructor").isSome

/-- Client-side role string of `AdminCourses.jsx` line 10:
`localStorage.getItem("userRole") || "student"`. -/
def userRole (stored : Option String) : String :=
  stored.getD "student"

/-- Render guard of `AdminCourses.jsx` line 111: the Delete button is
rendered exactly when `userRole === "admin" || userRole === "instructor"`;
the course row `c` plays no part in the decision. -/
def renderDelete (stored : Option String) (_c : Course) : Bool :=
  userRole stored == "admin" || userRole stored == "instructor"

/-- UI state of the AdminCourses page: the `deletingIds` set
(`AdminCourses.jsx` line 11) together with the identifiers of delete
requests currently in flight. -/
structure AdminCoursesState where
  deletingIds : List Nat
  inFlight : List Nat
deriving DecidableEq, Repr

/-- JS `new Set(prev).add(courseId)` (`AdminCourses.jsx` line 15): insert
the identifier if absent. -/
def setAdd (s : List Nat) (id : Nat) : List Nat :=
  if id ∈ s then s else s ++ [id]

/-- JS `s.delete(courseId)` (`AdminCourses.jsx` line 26): remove the
identifier. -/
def setDelete (s : List Nat) (id : Nat) : List Nat :=
  s.filter (fun x => x ≠ id)

/-- The `disabled` attribute of the Delete button: `deletingIds.has(c._id)`
(`AdminCourses.jsx` line 115). -/
def deleteButtonDisabled (s : List Nat) (id : Nat) : Bool :=
  decide (id ∈ s)

/-- UI events of the AdminCourses page: clicking Delete for a course, and
that delete request settling — the `finally` of `handleDelete` runs on
success and on failure alike. -/
inductive UiEvent
  | click (id : Nat)
  | settle (id : Nat)
deriving DecidableEq, Repr

/-- One step of the AdminCourses page (`AdminCourses.jsx` lines 13–30,
109–119). A click on a disabled button is impossible (the `disabled`
attribute); `handleDelete` first adds the identifier to `deletingIds` and
issues the request; when the request settles, the `finally` block removes
the identifier. -/
def adminStep (s : AdminCoursesState) (e : UiEvent) :
    Option AdminCoursesState :=
  match e with
  | .click id =>
    if deleteButtonDisabled s.deletingIds id then none
    else some { deletingIds := setAdd s.deletingIds id
                inFlight := id :: s.inFlight }
  | .settle id =>
    if id ∈ s.inFlight then
      some { deletingIds := setDelete s.deletingIds id
             inFlight := s.inFlight.erase id }
    else none

/-- Invariant of the AdminCourses page state: outstanding delete requests
are pairwise distinct and each one keeps its identifier in `deletingIds`. -/
def AdminInv (s : AdminCoursesState) : Prop :=
  s.inFlight.Nodup ∧
  ∀ id ∈ s.inFlight, deleteButtonDisabled s.deletingIds id = true

/-- Concrete admin actor for evaluating the theorems on inputs. -/
def adminEx : Actor := ⟨0, .admin⟩

/-- Concrete instructor actor (identifier 1, the owner of `courseEx`). -/
def instructorEx : Actor := ⟨1, .instructor⟩

/-- Concrete instructor actor who does not own `courseEx`. -/
def instructor2Ex : Actor := ⟨7, .instructor⟩

/-- Concrete student actor. -/
def studentEx : Actor := ⟨2, .student⟩

/-- The course payload of the test suite (`src/unnamed/part_000` lines
28–36). -/
def payloadEx : Payload :=
  { title := some "Test Course"
    description := some "A test course description"
    category := some "Technology"
    level := some "Beginner"
    price := some 999
    duration := some "4 weeks"
    thumbnail := some "https://example.com/thumbnail.jpg" }

/-- A payload with every field absent. -/
def emptyPayload : Payload := ⟨none, none, none, none, none, none, none⟩

/-- The empty persistence state. -/
def emptyDB : DB := ⟨[], [], [], 0⟩

/-- A stored course owned by `instructorEx`, with the data of the test
suite. -/
def courseEx : Course :=
  { _id := 0
    title := "Test Course"
    description := "A test course description"
    category := "Technology"
    level := "Beginner"
    price := 999
    duration := "4 weeks"
    thumbnail := "https://example.com/thumbnail.jpg"
    instructor := 1 }

/-- A persistence state holding exactly `courseEx`. -/
def dbOneCourse : DB := ⟨[courseEx], [], [], 1⟩

/-- C1: an authenticated instructor or admin with a valid payload creates a
course — 201 with the created record — while any authenticated actor whose
role is neither instructor nor admin is denied with 403 Forbidden. -/
theorem claim1_create_role_gate (a : Actor) (p : Payload) (db : DB)
    (hvalid : createValidationErrors p = []) :
    ((a.role = .instructor ∨ a.role = .admin) →
      postCoursesEndpoint (some a) p db =
        ({ status := 201, body := envelope (createdCourse a p db).toJson },
         { db with courses := db.courses ++ [createdCourse a p db]
                   nextId := db.nextId + 1 })) ∧
    (a.role ≠ .instructor → a.role ≠ .admin →
      (postCoursesEndpoint (some a) p db).1.status = 403) := by
  constructor
  · rintro (h | h) <;>
      simp [postCoursesEndpoint, protect, authorize, createCourse,
        validateCoursePayload, hvalid, h]
  · intro h1 h2
    cases hr : a.role with
    | student =>
      simp [postCoursesEndpoint, protect, authorize, hr, statusOf]
    | instructor => exact absurd hr h1
    | admin => exact absurd hr h2

/-- C1 witness: the instructor of the test suite creates the test course and
receives 201 with the record, while the student actor receives 403. -/
theorem claim1_create_role_gate_witness :
    postCoursesEndpoint (some instructorEx) payloadEx emptyDB =
      ({ status := 201,
         body := envelope (createdCourse instructorEx payloadEx emptyDB).toJson },
       { emptyDB with
           courses := emptyDB.courses ++ [createdCourse instructorEx payloadEx emptyDB]
           nextId := emptyDB.nextId + 1 }) ∧
    (postCoursesEndpoint (some studentEx) payloadEx emptyDB).1.status = 403 :=
  ⟨(claim1_create_role_gate instructorEx payloadEx emptyDB rfl).1 (Or.inl rfl),
   (claim1_create_role_gate studentEx payloadEx emptyDB rfl).2
     (by decide) (by decide)⟩

/-- C2: every unauthenticated request to a guarded course action is denied
with 401 Unauthenticated — never 403 Forbidden — because `protect` runs
before `authorize` in every chain of `courseRoutes.js`. -/
theorem claim2_unauthenticated_denied_first (p : Payload) (id : Nat)
    (rating : Int) (comment : String) (db : DB) :
    ((postCoursesEndpoint none p db).1.status = 401 ∧
      (postCoursesEndpoint none p db).1.status ≠ 403) ∧
    ((putCourseEndpoint none id p db).1.status = 401 ∧
      (putCourseEndpoint none id p db).1.status ≠ 403) ∧
    ((deleteCourseEndpoint none id db).1.status = 401 ∧
      (deleteCourseEndpoint none id db).1.status ≠ 403) ∧
    ((enrollEndpoint none id db).1.status = 401 ∧
      (enrollEndpoint none id db).1.status ≠ 403) ∧
    ((reviewEndpoint none id rating comment db).1.status = 401 ∧
      (reviewEndpoint none id rating comment db).1.status ≠ 403) ∧
    ((certificateEndpoint none id db).1.status = 401 ∧
      (certificateEndpoint none id db).1.status ≠ 403) :=
  ⟨⟨rfl, (by decide : (401 : Nat) ≠ 403)⟩,
   ⟨rfl, (by decide : (401 : Nat) ≠ 403)⟩,
   ⟨rfl, (by decide : (401 : Nat) ≠ 403)⟩,
   ⟨rfl, (by decide : (401 : Nat) ≠ 403)⟩,
   ⟨rfl, (by decide : (401 : Nat) ≠ 403)⟩,
   ⟨rfl, (by decide : (401 : Nat) ≠ 403)⟩⟩

/-- C4: both read routes carry no middleware: any request, authenticated or
not, receives the course list from `GET /api/courses`, and
`GET /api/courses/:id` returns the course when it exists and 404 when no
course has the identifier. -/
theorem claim4_read_routes_open (auth auth2 : Option Actor) (id : Nat)
    (db : DB) :
    getCoursesEndpoint auth db =
      ⟨200, envelope (.arr (db.courses.map Course.toJson))⟩ ∧
    getCoursesEndpoint auth db = getCoursesEndpoint auth2 db ∧
    getCourseByIdEndpoint auth id db = getCourseByIdEndpoint auth2 id db ∧
    (∀ c, findCourse db id = some c →
      getCourseByIdEndpoint auth id db = ⟨200, c.toJson⟩) ∧
    ((∀ c ∈ db.courses, c._id ≠ id) →
      (getCourseByIdEndpoint auth id db).status = 404) := by
  refine ⟨rfl, rfl, rfl, ?_, ?_⟩
  · intro c hc
    simp [getCourseByIdEndpoint, getCourseById, hc]
  · intro h
    have hnone : findCourse db id = none := by
      apply List.find?_eq_none.mpr
      intro c hc
      simpa using h c hc
    simp [getCourseByIdEndpoint, getCourseById, hnone, statusOf]

/-- C10: the AdminCourses page renders the Delete control exactly when the
client-side role string (default "student" when nothing is stored) is
"admin" or "instructor"; the decision ignores the course row, and with no
stored role no Delete control is rendered. -/
theorem claim10_delete_button_role (stored : Option String) (c c2 : Course) :
    (renderDelete stored c = true ↔
      (userRole stored = "admin" ∨ userRole stored = "instructor")) ∧
    renderDelete stored c = renderDelete stored c2 ∧
    renderDelete none c = false ∧
    userRole none = "student" := by
  refine ⟨?_, rfl, ?_, rfl⟩
  · simp [renderDelete]
  · rfl

/-- Helper: looking a fresh identifier up after appending its record finds
that record. -/
lemma find_append_fresh (l : List Course) (c : Course)
    (h : ∀ d ∈ l, d._id ≠ c._id) :
    (l ++ [c]).find? (fun d => d._id == c._id) = some c := by
  induction l with
  | nil => simp [List.find?]
  | cons a t ih =>
    have ha : (a._id == c._id) = false :=
      beq_eq_false_iff_ne.mpr (h a (List.mem_cons_self a t))
    simpa [List.find?, ha] using ih fun d hd => h d (List.mem_cons_of_mem a hd)

/-- C3: update and delete succeed only for an admin or the owning
instructor: a non-owning instructor is denied 403 on both, an admin with a
valid payload updates with 200 and the updated record, and any 200 from
either endpoint implies the actor was admin or the owner. -/
theorem claim3_update_delete_ownership (I A B : Actor) (c : Course)
    (id : Nat) (p : Payload) (db : DB)
    (hfind : findCourse db id = some c)
    (hI : I.role = .instructor) (hIne : I.id ≠ c.instructor)
    (hA : A.role = .admin) (hvalid : updateValidationErrors p = []) :
    (putCourseEndpoint (some I) id p db).1.status = 403 ∧
    (deleteCourseEndpoint (some I) id db).1.status = 403 ∧
    (putCourseEndpoint (some A) id p db).1 =
      ⟨200, envelope (applyUpdate c p).toJson⟩ ∧
    ((putCourseEndpoint (some B) id p db).1.status = 200 →
      B.role = .admin ∨ (B.role = .instructor ∧ B.id = c.instructor)) ∧
    ((deleteCourseEndpoint (some B) id db).1.status = 200 →
      B.role = .admin ∨ (B.role = .instructor ∧ B.id = c.instructor)) := by
  refine ⟨?_, ?_, ?_, ?_, ?_⟩
  · simp [putCourseEndpoint, protect, authorize, updateCourse, hfind,
      canPerform, hI, hIne, statusOf]
  · simp [deleteCourseEndpoint, protect, authorize, deleteCourse, hfind,
      canPerform, hI, hIne, statusOf]
  · simp [putCourseEndpoint, protect, authorize, updateCourse, hfind,
      canPerform, hA, hvalid]
  · intro h
    cases hr : B.role with
    | student =>
      simp [putCourseEndpoint, protect, authorize, hr, statusOf] at h
    | admin => exact Or.inl rfl
    | instructor =>
      by_cases hid : B.id = c.instructor
      · exact Or.inr ⟨rfl, hid⟩
      · simp [putCourseEndpoint, protect, authorize, updateCourse, hfind,
          canPerform, hr, hid, statusOf] at h
  · intro h
    cases hr : B.role with
    | student =>
      simp [deleteCourseEndpoint, protect, authorize, hr, statusOf] at h
    | admin => exact Or.inl rfl
    | instructor =>
      by_cases hid : B.id = c.instructor
      · exact Or.inr ⟨rfl, hid⟩
      · simp [deleteCourseEndpoint, protect, authorize, deleteCourse, hfind,
          canPerform, hr, hid, statusOf] at h

/-- C3 witness: on the stored test course, the non-owning instructor is
denied 403 on update and delete, and the admin updates it with 200 and the
updated record. -/
theorem claim3_update_delete_ownership_witness :
    (putCourseEndpoint (some instructor2Ex) 0 payloadEx dbOneCourse).1.status
      = 403 ∧
    (deleteCourseEndpoint (some instructor2Ex) 0 dbOneCourse).1.status
      = 403 ∧
    (putCourseEndpoint (some adminEx) 0 payloadEx dbOneCourse).1 =
      ⟨200, envelope (applyUpdate courseEx payloadEx).toJson⟩ := by
  have h := claim3_update_delete_ownership instructor2Ex adminEx studentEx
    courseEx 0 payloadEx dbOneCourse rfl rfl (by decide) rfl rfl
  exact ⟨h.1, h.2.1, h.2.2.1⟩

/-- C5: enrolling twice with the same (actor, course): the first call
succeeds and appends one enrollment record, leaving exactly one record for
the pair, and the second call fails with Conflict without touching the
state. -/
theorem claim5_enroll_idempotent (a : Actor) (id : Nat) (c : Course)
    (db : DB) (hfind : findCourse db id = some c)
    (hnone : ∀ e ∈ db.enrollments, ¬(e.user = a.id ∧ e.course = id)) :
    ∃ db2, enrollCourse a id db = .ok db2 ∧
      db2.enrollments.countP
        (fun e => e.user == a.id && e.course == id) = 1 ∧
      enrollCourse a id db2 = .error .conflict ∧
      db2.enrollments = db.enrollments ++ [⟨a.id, id, false⟩] := by
  have hany :
      db.enrollments.any (fun e => e.user == a.id && e.course == id)
        = false := by
    rw [List.any_eq_false]
    intro e he
    simpa using hnone e he
  have hzero :
      db.enrollments.countP (fun e => e.user == a.id && e.course == id)
        = 0 := by
    rw [List.countP_eq_zero]
    intro e he
    simpa using hnone e he
  refine ⟨{ db with enrollments := db.enrollments ++ [⟨a.id, id, false⟩] },
    ?_, ?_, ?_, rfl⟩
  · simp [enrollCourse, hfind, hany]
  · simp [List.countP_append, hzero, List.countP_cons]
  · have hfind2 :
        findCourse { db with
          enrollments := db.enrollments ++ [⟨a.id, id, false⟩] } id
          = some c := hfind
    simp [enrollCourse, hfind2]

/-- C5 witness: the student enrolls in the stored test course; one record
for the pair exists afterwards and the repeated call yields Conflict. -/
theorem claim5_enroll_idempotent_witness :
    ∃ db2, enrollCourse studentEx 0 dbOneCourse = .ok db2 ∧
      db2.enrollments.countP
        (fun e => e.user == studentEx.id && e.course == 0) = 1 ∧
      enrollCourse studentEx 0 db2 = .error .conflict ∧
      db2.enrollments = dbOneCourse.enrollments ++ [⟨studentEx.id, 0, false⟩] :=
  claim5_enroll_idempotent studentEx 0 courseEx dbOneCourse rfl (by simp [dbOneCourse])

/-- C6: create followed by fetch-by-identifier round-trips the submitted
title, price and duration exactly. -/
theorem claim6_create_get_roundtrip (a : Actor) (p : Payload) (db : DB)
    (t dur : String) (pr : Int)
    (ht : p.title = some t)
    (hpr : p.price = some pr) (hdur : p.duration = some dur)
    (hvalid : createValidationErrors p = [])
    (hfresh : ∀ c ∈ db.courses, c._id ≠ db.nextId) :
    ∃ c db2, createCourse a p db = .ok (c, db2) ∧
      getCourseById db2 c._id = .ok c ∧
      c.title = t ∧ c.price = pr ∧ c.duration = dur := by
  refine ⟨createdCourse a p db,
    { db with courses := db.courses ++ [createdCourse a p db]
              nextId := db.nextId + 1 }, ?_, ?_, ?_, ?_, ?_⟩
  · simp [createCourse, validateCoursePayload, hvalid]
  · have : (db.courses ++ [createdCourse a p db]).find?
        (fun d => d._id == (createdCourse a p db)._id)
        = some (createdCourse a p db) :=
      find_append_fresh db.courses (createdCourse a p db) hfresh
    simp [getCourseById, findCourse, this]
  · simp [createdCourse, ht]
  · simp [createdCourse, hpr]
  · simp [createdCourse, hdur]

/-- C6 witness: creating the test payload (price 999, duration "4 weeks")
in the empty store and fetching the generated identifier returns exactly
those values. -/
theorem claim6_create_get_roundtrip_witness :
    ∃ c db2, createCourse instructorEx payloadEx emptyDB = .ok (c, db2) ∧
      getCourseById db2 c._id = .ok c ∧
      c.title = "Test Course" ∧ c.price = 999 ∧ c.duration = "4 weeks" :=
  claim6_create_get_roundtrip instructorEx payloadEx emptyDB
    "Test Course" "4 weeks" 999
    rfl rfl rfl rfl (by simp [emptyDB])

/-- C8: a create payload missing (or blank in) both title and description
fails validation with a ValidationFailed that lists both offending fields. -/
theorem claim8_validation_exhaustive (p : Payload)
    (ht : p.title.getD "" = "") (hdesc : p.description.getD "" = "") :
    ∃ errs, validateCoursePayload p = .error (.validationFailed errs) ∧
      "title" ∈ errs ∧ "description" ∈ errs := by
  have hT : (p.title.getD "").isEmpty = true := by rw [ht]; rfl
  have hD : (p.description.getD "").isEmpty = true := by rw [hdesc]; rfl
  have hlist : createValidationErrors p =
      "title" :: "description" ::
        (if (p.price.getD 0) < 0 then ["price"] else []) := by
    simp [createValidationErrors, hT, hD]
  refine ⟨createValidationErrors p, ?_, ?_, ?_⟩
  · rw [validateCoursePayload, hlist]
  · rw [hlist]; simp
  · rw [hlist]; simp

/-- C8 witness: the all-absent payload fails validation listing both
"title" and "description". -/
theorem claim8_validation_exhaustive_witness :
    ∃ errs, validateCoursePayload emptyPayload =
        .error (.validationFailed errs) ∧
      "title" ∈ errs ∧ "description" ∈ errs :=
  claim8_validation_exhaustive emptyPayload rfl rfl

/-- Helper: every serialized course record carries `_id`, `title`, `price`,
`duration` and `instructor`. -/
lemma hasRequiredFields_toJson (c : Course) :
    hasRequiredFields c.toJson = true := rfl

/-- Helper: a bare course record has no `success` key. -/
lemma toJson_getField_success (c : Course) :
    c.toJson.getField "success" = none := rfl

/-- Helper: no error status is 201. -/
lemma statusOf_ne_201 (e : ApiError) : statusOf e ≠ 201 := by
  cases e <;> simp [statusOf]

/-- Helper: no error status is 200. -/
lemma statusOf_ne_200 (e : ApiError) : statusOf e ≠ 200 := by
  cases e <;> simp [statusOf]

/-- C7 counterexample: the claim extends the `\x7b success, data \x7d`
envelope to every success response, getCourseById included; but fetching
the stored test course succeeds with 200 and a body that has no `success`
key and carries `price` at the top level — exactly what the test suite
reads (`getRes.body.price`, `src/unnamed/part_000` line 134). -/
theorem claim7_envelope_counterexample :
    (getCourseByIdEndpoint none 0 dbOneCourse).status = 200 ∧
    (getCourseByIdEndpoint none 0 dbOneCourse).body.getField "success"
      = none ∧
    (getCourseByIdEndpoint none 0 dbOneCourse).body.getField "price"
      = some (.num 999) :=
  ⟨rfl, rfl, rfl⟩

/-- C7 amended: success responses from create and update carry the
envelope with the required record fields present under `data`, while
getCourseById returns the bare course record — its fields at the top level
of the body, with no envelope. -/
theorem claim7_envelope_amended (auth : Option Actor) (p : Payload)
    (id : Nat) (db : DB) :
    (∀ r db2, postCoursesEndpoint auth p db = (r, db2) →
      r.status = 201 →
      ∃ c : Course, r.body = envelope c.toJson ∧
        hasRequiredFields c.toJson = true) ∧
    (∀ r db2, putCourseEndpoint auth id p db = (r, db2) →
      r.status = 200 →
      ∃ c : Course, r.body = envelope c.toJson ∧
        hasRequiredFields c.toJson = true) ∧
    (∀ c, findCourse db id = some c →
      getCourseByIdEndpoint auth id db = ⟨200, c.toJson⟩ ∧
      (getCourseByIdEndpoint auth id db).body.getField "success" = none ∧
      hasRequiredFields (getCourseByIdEndpoint auth id db).body = true) := by
  refine ⟨?_, ?_, ?_⟩
  · intro r db2 hres h
    unfold postCoursesEndpoint at hres
    cases hp : protect auth with
    | error e =>
      simp only [hp] at hres
      injection hres with h1 h2
      subst h1
      exact absurd h (statusOf_ne_201 e)
    | ok a =>
      simp only [hp] at hres
      cases ha : authorize [.admin, .instructor] a with
      | error e =>
        simp only [ha] at hres
        injection hres with h1 h2
        subst h1
        exact absurd h (statusOf_ne_201 e)
      | ok a2 =>
        simp only [ha] at hres
        cases hc : createCourse a2 p db with
        | error e =>
          simp only [hc] at hres
          injection hres with h1 h2
          subst h1
          exact absurd h (statusOf_ne_201 e)
        | ok pr =>
          obtain ⟨c0, db0⟩ := pr
          simp only [hc] at hres
          injection hres with h1 h2
          subst h1
          exact ⟨c0, rfl, hasRequiredFields_toJson c0⟩
  · intro r db2 hres h
    unfold putCourseEndpoint at hres
    cases hp : protect auth with
    | error e =>
      simp only [hp] at hres
      injection hres with h1 h2
      subst h1
      exact absurd h (statusOf_ne_200 e)
    | ok a =>
      simp only [hp] at hres
      cases ha : authorize [.admin, .instructor] a with
      | error e =>
        simp only [ha] at hres
        injection hres with h1 h2
        subst h1
        exact absurd h (statusOf_ne_200 e)
      | ok a2 =>
        simp only [ha] at hres
        cases hc : updateCourse a2 id p db with
        | error e =>
          simp only [hc] at hres
          injection hres with h1 h2
          subst h1
          exact absurd h (statusOf_ne_200 e)
        | ok pr =>
          obtain ⟨c0, db0⟩ := pr
          simp only [hc] at hres
          injection hres with h1 h2
          subst h1
          exact ⟨c0, rfl, hasRequiredFields_toJson c0⟩
  · intro c hc
    have hbody : getCourseByIdEndpoint auth id db = ⟨200, c.toJson⟩ := by
      simp [getCourseByIdEndpoint, getCourseById, hc]
    exact ⟨hbody, by rw [hbody]; exact toJson_getField_success c,
      by rw [hbody]; exact hasRequiredFields_toJson c⟩

/-- C9: on the AdminCourses page, while a delete request for a course is in
flight its identifier sits in `deletingIds` and its Delete button is
disabled — so a second delete for that course cannot be initiated — and the
identifier leaves `deletingIds` the moment the request settles. -/
theorem claim9_deletingIds_invariant (s s2 : AdminCoursesState)
    (e : UiEvent) (hinv : AdminInv s) (hstep : adminStep s e = some s2) :
    AdminInv s2 ∧
    (∀ id ∈ s.inFlight, deleteButtonDisabled s.deletingIds id = true ∧
      adminStep s (.click id) = none) ∧
    (∀ id, e = .settle id →
      deleteButtonDisabled s2.deletingIds id = false) := by
  obtain ⟨hnd, hmem⟩ := hinv
  refine ⟨?_, fun id hid => ⟨hmem id hid, by simp [adminStep, hmem id hid]⟩,
    ?_⟩
  · cases e with
    | click id0 =>
      have hdis : deleteButtonDisabled s.deletingIds id0 = false := by
        by_cases hd : deleteButtonDisabled s.deletingIds id0 = true
        · rw [adminStep] at hstep
          simp [hd] at hstep
        · exact Bool.eq_false_iff.mpr hd
      rw [adminStep] at hstep
      simp [hdis] at hstep
      subst hstep
      have hnotin : id0 ∉ s.inFlight := fun contra => by
        have := hmem id0 contra
        rw [hdis] at this
        exact Bool.false_ne_true this
      refine ⟨List.nodup_cons.mpr ⟨hnotin, hnd⟩, ?_⟩
      intro id hid
      rcases List.mem_cons.mp hid with h | h
      · subst h
        simp [deleteButtonDisabled, setAdd]
        split
        · next hin => exact hin
        · simp
      · have := hmem id h
        have hin : id ∈ s.deletingIds := of_decide_eq_true this
        simp [deleteButtonDisabled, setAdd]
        split
        · exact hin
        · exact List.mem_append_left _ hin
    | settle id0 =>
      rw [adminStep] at hstep
      by_cases hin : id0 ∈ s.inFlight
      · simp [hin] at hstep
        subst hstep
        refine ⟨hnd.erase id0, ?_⟩
        intro id hid
        have h2 := (hnd.mem_erase_iff).mp hid
        have hmem2 := hmem id h2.2
        have hin2 : id ∈ s.deletingIds := of_decide_eq_true hmem2
        simp [deleteButtonDisabled, setDelete, List.mem_filter, hin2, h2.1]
      · simp [hin] at hstep
  · intro id he
    cases e with
    | click id0 => simp at he
    | settle id0 =>
      have : id0 = id := by
        injection he
      subst this
      rw [adminStep] at hstep
      by_cases hin : id0 ∈ s.inFlight
      · simp [hin] at hstep
        subst hstep
        simp [deleteButtonDisabled, setDelete, List.mem_filter]
      · simp [hin] at hstep

/-- C9 witness: clicking Delete for course 5 from the idle page adds 5 to
`deletingIds`, keeps the invariant, and a settling event is not what
happened. -/
theorem claim9_deletingIds_invariant_witness :
    AdminInv ⟨[5], [5]⟩ ∧
    (∀ id ∈ ([] : List Nat),
      deleteButtonDisabled ([] : List Nat) id = true ∧
      adminStep ⟨[], []⟩ (.click id) = none) ∧
    (∀ id, UiEvent.click 5 = .settle id →
      deleteButtonDisabled ([5] : List Nat) id = false) := by
  have h := claim9_deletingIds_invariant ⟨[], []⟩ ⟨[5], [5]⟩ (.click 5)
    ⟨List.nodup_nil, by intro id hid; simp at hid⟩ rfl
  exact h

end LearningSystem
